import Mathlib

/-!
Verification of the data-processing core of the ml-inference-platform
repository: a shallow embedding of `src/data/processors.py`
(class `BookDataProcessor`) together with proofs of the specified
properties of `clean_ratings`, `filter_sparse_data` and
`create_interaction_matrix`.

Modelling conventions:
* A polars `DataFrame` holding the cleaned ratings (columns
  `user_id`, `isbn`, `rating`) is a `List RatingRow`; the list order
  carries the frame's row order, duplicates are kept (a frame is a
  multiset with an order).
* Identifiers are the raw string tokens.  The filtering / mapping
  claims quantify over cleaned rating triples, whose identifiers are
  non-null opaque tokens, so `RatingRow` uses plain `String`.
* The raw ratings frame fed to `clean_ratings` may hold nulls, so its
  fields are `Option String`; no cast is applied by the code, so the
  rating stays a raw token there.
* `group_by(...).len()` followed by an inner join on the key and a
  comparison is embedded as `List.countP` of the key predicate: every
  key of the joined frame occurs in the count table (the counts are
  computed over the same set or a superset), so the inner join matches
  every row exactly once and the join-filter-drop composition is a
  plain `List.filter`; the intermediate count column is added and
  dropped inside the pass, so the schema stays the three rating
  columns.  The `while` loop compares `ratings.shape`; the column
  count is constantly 3, so the comparison is a row-count comparison,
  and the initial `prev_shape = (0, 0)` makes the body run at least
  once.
* Machine integers: row counts and thresholds are `Nat` (Python ints
  do not overflow).
-/

/-- A row of the cleaned ratings frame: columns `user_id`, `isbn`,
`rating` as produced by `clean_ratings` and consumed by
`filter_sparse_data` / `create_interaction_matrix`. -/
structure RatingRow where
  user_id : String
  isbn : String
  rating : Int
deriving DecidableEq, Repr

/-- The processor object of `processors.py`: its constructor stores the
two sparsity thresholds. -/
structure BookDataProcessor where
  min_ratings_per_user : Nat
  min_ratings_per_book : Nat
deriving DecidableEq, Repr

/-- `ratings.group_by("user_id").len()` looked up at user `u`: the
number of rows of `rs` whose `user_id` equals `u`. -/
def userRatingCount (rs : List RatingRow) (u : String) : Nat :=
  rs.countP (fun r => r.user_id == u)

/-- `ratings.group_by("isbn").len()` looked up at ISBN `b`: the number
of rows of `rs` whose `isbn` equals `b`. -/
def bookRatingCount (rs : List RatingRow) (b : String) : Nat :=
  rs.countP (fun r => r.isbn == b)

namespace BookDataProcessor

/-- One execution of the body of the `while` loop of
`filter_sparse_data`: join with `user_counts`, keep rows with
`user_rating_count >= min_ratings_per_user`, drop the count column;
then join with `book_counts`, keep rows with
`book_rating_count >= min_ratings_per_book`, drop the count column.
Both count tables were (re)computed over the set as it stood at the
start of the pass (`cs`): in the source they are built just before the
loop for the first pass and at the end of the previous pass
otherwise. -/
def sparsityPass (self : BookDataProcessor) (cs : List RatingRow) : List RatingRow :=
  ((cs.filter (fun r => decide (self.min_ratings_per_user ≤ userRatingCount cs r.user_id))).filter
    (fun r => decide (self.min_ratings_per_book ≤ bookRatingCount cs r.isbn)))

/-- The `while ratings.shape != prev_shape` loop of
`filter_sparse_data`.  The body runs at least once (the entry
comparison is against `(0, 0)` and the frame has 3 columns); the loop
exits as soon as a pass leaves the row count unchanged. -/
def filterLoop (self : BookDataProcessor) (ratings : List RatingRow) : List RatingRow :=
  if (self.sparsityPass ratings).length = ratings.length then self.sparsityPass ratings
  else self.filterLoop (self.sparsityPass ratings)
termination_by ratings.length
decreasing_by
  have hle : (self.sparsityPass ratings).length ≤ ratings.length :=
    ((List.filter_sublist _).trans (List.filter_sublist _)).length_le
  omega

/-- `BookDataProcessor.filter_sparse_data`: iteratively remove users
and books with too few ratings until a pass changes nothing. -/
def filter_sparse_data (self : BookDataProcessor) (ratings : List RatingRow) : List RatingRow :=
  self.filterLoop ratings

end BookDataProcessor

/-- A row of the raw ratings frame as loaded from `Ratings.csv`
(columns `User-ID`, `ISBN`, `Book-Rating`); fields are `Option String`
because a CSV cell may be null, and no cast is applied by
`clean_ratings`, so the rating is kept as its raw token. -/
structure RawRatingRow where
  userID : Option String
  ISBN : Option String
  bookRating : Option String
deriving DecidableEq, Repr

/-- The frame produced by the `with_columns` stage of `clean_ratings`:
the three original columns plus the three aliased copies. -/
structure RatingsWithAliases where
  userID : Option String
  ISBN : Option String
  bookRating : Option String
  user_id : Option String
  isbn : Option String
  rating : Option String
deriving DecidableEq, Repr

/-- A row of the output of `clean_ratings`: columns `user_id`, `isbn`,
`rating`, value types unchanged from the raw frame. -/
structure CleanedRatingRow where
  user_id : Option String
  isbn : Option String
  rating : Option String
deriving DecidableEq, Repr

namespace BookDataProcessor

/-- `BookDataProcessor.clean_ratings`: `with_columns` adds the columns
`user_id`, `isbn`, `rating` as aliases of `User-ID`, `ISBN`,
`Book-Rating`, then `select` keeps only the three aliases. -/
def clean_ratings (self : BookDataProcessor) (rows : List RawRatingRow) :
    List CleanedRatingRow :=
  ((rows.map (fun r =>
      ({ userID := r.userID, ISBN := r.ISBN, bookRating := r.bookRating,
         user_id := r.userID, isbn := r.ISBN, rating := r.bookRating } : RatingsWithAliases))).map
    (fun r => ({ user_id := r.user_id, isbn := r.isbn, rating := r.rating } : CleanedRatingRow)))

end BookDataProcessor

/-- A whitespace-only (all-blank) identifier token. -/
def isBlankToken (s : String) : Bool :=
  s.data.all (fun c => c == ' ')

/-- A numeric rating token: non-empty and all digits. -/
def isNumericToken (s : String) : Bool :=
  !s.data.isEmpty && s.data.all Char.isDigit

/-- The deterministic total order polars' `Series.sort` uses on string
identifiers, embedded as the lexicographic order on the token's
character list (for these tokens, byte order and code-point order
agree). -/
def lexLe (a b : String) : Prop :=
  a.data ≤ b.data

/-- Strict version of `lexLe`. -/
def lexLt (a b : String) : Prop :=
  a.data < b.data

instance : DecidableRel lexLe := fun a b =>
  inferInstanceAs (Decidable (a.data ≤ b.data))

instance : DecidableRel lexLt := fun a b =>
  inferInstanceAs (Decidable (a.data < b.data))

instance : IsTotal String lexLe :=
  ⟨fun a b => le_total a.data b.data⟩

instance : IsTrans String lexLe :=
  ⟨fun _ _ _ hab hbc => le_trans hab hbc⟩

instance : IsAntisymm String lexLe :=
  ⟨fun a b hab hba => by
    cases a; cases b
    exact congrArg String.mk (le_antisymm hab hba)⟩

/-- `series.unique().sort()`: the distinct values of a string column in
ascending lexicographic order. -/
def sortedUnique (xs : List String) : List String :=
  List.insertionSort lexLe xs.dedup

/-- `ratings["user_id"].unique().sort()`. -/
def uniqueSortedUsers (rs : List RatingRow) : List String :=
  sortedUnique (rs.map (fun r => r.user_id))

/-- `ratings["isbn"].unique().sort()`. -/
def uniqueSortedBooks (rs : List RatingRow) : List String :=
  sortedUnique (rs.map (fun r => r.isbn))

/-- Position of a value in a list, `none` when absent: the lookup of a
dict built by `{x: idx for idx, x in enumerate(l)}` (absence is the
`KeyError` branch). -/
def idxIn (l : List String) (u : String) : Option Nat :=
  if u ∈ l then some (l.indexOf u) else none

/-- The dict `user_to_idx = {user: idx for idx, user in
enumerate(unique_users)}` looked up at `u`. -/
def userToIdx (rs : List RatingRow) (u : String) : Option Nat :=
  idxIn (uniqueSortedUsers rs) u

/-- The dict `book_to_idx` looked up at `b`. -/
def bookToIdx (rs : List RatingRow) (b : String) : Option Nat :=
  idxIn (uniqueSortedBooks rs) b

/-- The inverted dict `idx_to_user = {v: k for k, v in
user_to_idx.items()}` looked up at `i`. -/
def idxToUser (rs : List RatingRow) (i : Nat) : Option String :=
  (uniqueSortedUsers rs)[i]?

/-- The inverted dict `idx_to_book` looked up at `i`. -/
def idxToBook (rs : List RatingRow) (i : Nat) : Option String :=
  (uniqueSortedBooks rs)[i]?

/-- The `mappings` dict returned by `create_interaction_matrix`: the
two forward dicts, the two inverted dicts, and the entity counts
`n_users = len(unique_users)`, `n_books = len(unique_books)`. -/
structure Mappings where
  user_to_idx : String → Option Nat
  book_to_idx : String → Option Nat
  idx_to_user : Nat → Option String
  idx_to_book : Nat → Option String
  n_users : Nat
  n_books : Nat

/-- A row of the `interaction_matrix` frame: the rating row plus the
mapped `user_idx` / `book_idx` columns (`none` marks the unreachable
`KeyError` branch of the dict lookup). -/
structure InteractionRow where
  user_id : String
  isbn : String
  rating : Int
  user_idx : Option Nat
  book_idx : Option Nat
deriving DecidableEq, Repr

namespace BookDataProcessor

/-- `BookDataProcessor.create_interaction_matrix`: build the sorted
unique identifier lists, the forward and inverted index dicts, add the
mapped index columns to the frame, and return the frame together with
the `mappings` dict. -/
def create_interaction_matrix (self : BookDataProcessor) (rs : List RatingRow) :
    List InteractionRow × Mappings :=
  (rs.map (fun r =>
      { user_id := r.user_id, isbn := r.isbn, rating := r.rating,
        user_idx := userToIdx rs r.user_id, book_idx := bookToIdx rs r.isbn }),
   { user_to_idx := userToIdx rs
     book_to_idx := bookToIdx rs
     idx_to_user := idxToUser rs
     idx_to_book := idxToBook rs
     n_users := (uniqueSortedUsers rs).length
     n_books := (uniqueSortedBooks rs).length })

end BookDataProcessor

/-- The per-pass transformation of SparsityFilter as the spec's
algorithm steps 2 and 3 word it: per-user counts are computed over
`current` and user-sparse triples dropped, then per-item counts are
computed over the result of the user step and item-sparse triples
dropped.  Defined from the spec's words, to be compared with
`BookDataProcessor.sparsityPass`, the pass the source executes. -/
def specPassStep (minU minI : Nat) (cur : List RatingRow) : List RatingRow :=
  ((cur.filter (fun r => decide (minU ≤ userRatingCount cur r.user_id))).filter
    (fun r => decide (minI ≤ bookRatingCount
      (cur.filter (fun s => decide (minU ≤ userRatingCount cur s.user_id))) r.isbn)))

/-- The self-referential sparsity invariant of a `FilteredRatingSet`:
every triple's user and item counts, recomputed within the set itself,
meet the two thresholds. -/
def satisfiesSparsity (minU minI : Nat) (rs : List RatingRow) : Prop :=
  ∀ r ∈ rs, minU ≤ userRatingCount rs r.user_id ∧ minI ≤ bookRatingCount rs r.isbn

/-- Concrete frame separating the code's pass from the spec's pass:
with thresholds 2/2, user filtering keeps only u1's two rows; the
code's item counts are taken over all four rows (b1 appears 3 times),
the spec's over the two surviving rows (b1 appears once). -/
def exPass : List RatingRow :=
  [⟨"u1", "b1", 5⟩, ⟨"u1", "b2", 3⟩, ⟨"u2", "b1", 4⟩, ⟨"u3", "b1", 2⟩]

/-- The spec §8 scenario frame: `[(u1,i1,5),(u1,i2,3),(u2,i1,4)]`. -/
def exSpec : List RatingRow :=
  [⟨"u1", "i1", 5⟩, ⟨"u1", "i2", 3⟩, ⟨"u2", "i1", 4⟩]

/-- A one-row frame that survives filtering with thresholds 1/1. -/
def exOne : List RatingRow :=
  [⟨"u1", "b1", 5⟩]

/-- A raw ratings row with a whitespace-only user identifier and a
non-numeric rating token. -/
def exRawBlank : RawRatingRow :=
  ⟨some "   ", some "0316666343", some "ten"⟩

/-- A raw ratings row with a missing (null) user identifier and a
missing rating. -/
def exRawNull : RawRatingRow :=
  ⟨none, some "0316666343", none⟩

/-! ### Helper lemmas: the filtering loop -/

namespace BookDataProcessor

theorem sparsityPass_sublist (self : BookDataProcessor) (cs : List RatingRow) :
    (self.sparsityPass cs).Sublist cs :=
  (List.filter_sublist _).trans (List.filter_sublist _)

theorem sparsityPass_length_le (self : BookDataProcessor) (cs : List RatingRow) :
    (self.sparsityPass cs).length ≤ cs.length :=
  (self.sparsityPass_sublist cs).length_le

theorem filterLoop_unfold (self : BookDataProcessor) (rs : List RatingRow) :
    self.filterLoop rs =
      if (self.sparsityPass rs).length = rs.length then self.sparsityPass rs
      else self.filterLoop (self.sparsityPass rs) := by
  rw [filterLoop]

theorem filterLoop_sublist (self : BookDataProcessor) (rs : List RatingRow) :
    (self.filterLoop rs).Sublist rs := by
  rw [filterLoop_unfold]
  split
  · exact self.sparsityPass_sublist rs
  · exact (self.filterLoop_sublist (self.sparsityPass rs)).trans (self.sparsityPass_sublist rs)
termination_by rs.length
decreasing_by
  have hle := self.sparsityPass_length_le rs
  omega

/-- When the loop exits, the last pass changed nothing: the output is a
fixed point of `sparsityPass`. -/
theorem sparsityPass_filterLoop (self : BookDataProcessor) (rs : List RatingRow) :
    self.sparsityPass (self.filterLoop rs) = self.filterLoop rs := by
  rw [filterLoop_unfold]
  split
  · rename_i h
    have heq : self.sparsityPass rs = rs :=
      (self.sparsityPass_sublist rs).eq_of_length h
    rw [heq]
    exact heq
  · exact self.sparsityPass_filterLoop (self.sparsityPass rs)
termination_by rs.length
decreasing_by
  have hle := self.sparsityPass_length_le rs
  omega

/-- A set unchanged by one pass satisfies the sparsity invariant. -/
theorem satisfiesSparsity_of_pass_fixed (self : BookDataProcessor) {rs : List RatingRow}
    (h : self.sparsityPass rs = rs) :
    satisfiesSparsity self.min_ratings_per_user self.min_ratings_per_book rs := by
  unfold sparsityPass at h
  have h1 : rs.filter
      (fun r => decide (self.min_ratings_per_user ≤ userRatingCount rs r.user_id)) = rs := by
    have hsub := @List.filter_sublist _
      (fun r => decide (self.min_ratings_per_user ≤ userRatingCount rs r.user_id)) rs
    refine hsub.eq_of_length ?_
    have hl1 := hsub.length_le
    have hl2 := (@List.filter_sublist _
      (fun r => decide (self.min_ratings_per_book ≤ bookRatingCount rs r.isbn))
      (rs.filter (fun r => decide (self.min_ratings_per_user ≤ userRatingCount rs r.user_id)))).length_le
    have hl3 : ((rs.filter
        (fun r => decide (self.min_ratings_per_user ≤ userRatingCount rs r.user_id))).filter
        (fun r => decide (self.min_ratings_per_book ≤ bookRatingCount rs r.isbn))).length
        = rs.length := by rw [h]
    omega
  rw [h1] at h
  intro r hr
  have hu := (List.filter_eq_self.mp h1) r hr
  have hb := (List.filter_eq_self.mp h) r hr
  exact ⟨of_decide_eq_true hu, of_decide_eq_true hb⟩

/-- Any subset (as a sublist) of the pass's input that already
satisfies the invariant survives the pass intact. -/
theorem sublist_sparsityPass_of_satisfies (self : BookDataProcessor)
    {T cs : List RatingRow} (hT : T.Sublist cs)
    (hsat : satisfiesSparsity self.min_ratings_per_user self.min_ratings_per_book T) :
    T.Sublist (self.sparsityPass cs) := by
  have hu : T.filter
      (fun r => decide (self.min_ratings_per_user ≤ userRatingCount cs r.user_id)) = T := by
    refine List.filter_eq_self.mpr ?_
    intro r hr
    refine decide_eq_true ?_
    calc self.min_ratings_per_user ≤ userRatingCount T r.user_id := (hsat r hr).1
      _ ≤ userRatingCount cs r.user_id := hT.countP_le _
  have hb : T.filter
      (fun r => decide (self.min_ratings_per_book ≤ bookRatingCount cs r.isbn)) = T := by
    refine List.filter_eq_self.mpr ?_
    intro r hr
    refine decide_eq_true ?_
    calc self.min_ratings_per_book ≤ bookRatingCount T r.isbn := (hsat r hr).2
      _ ≤ bookRatingCount cs r.isbn := hT.countP_le _
  calc T = (T.filter _).filter _ := by rw [hu, hb]
    _ |>.Sublist (self.sparsityPass cs) :=
      List.Sublist.filter _ (List.Sublist.filter _ hT)

/-- Any subset of the loop's input that already satisfies the invariant
survives the whole loop intact. -/
theorem sublist_filterLoop_of_satisfies (self : BookDataProcessor)
    {T cs : List RatingRow} (hT : T.Sublist cs)
    (hsat : satisfiesSparsity self.min_ratings_per_user self.min_ratings_per_book T) :
    T.Sublist (self.filterLoop cs) := by
  rw [filterLoop_unfold]
  split
  · exact self.sublist_sparsityPass_of_satisfies hT hsat
  · exact self.sublist_filterLoop_of_satisfies
      (self.sublist_sparsityPass_of_satisfies hT hsat) hsat
termination_by cs.length
decreasing_by
  have hle := self.sparsityPass_length_le cs
  omega

end BookDataProcessor

/-! ### Helper lemmas: sorted unique identifier lists -/

theorem sortedUnique_nodup (xs : List String) : (sortedUnique xs).Nodup :=
  (List.nodup_dedup xs).perm (List.perm_insertionSort lexLe xs.dedup).symm

theorem mem_sortedUnique {xs : List String} {a : String} :
    a ∈ sortedUnique xs ↔ a ∈ xs := by
  rw [sortedUnique, (List.perm_insertionSort lexLe xs.dedup).mem_iff, List.mem_dedup]

theorem sortedUnique_sorted (xs : List String) :
    List.Sorted lexLe (sortedUnique xs) :=
  List.sorted_insertionSort lexLe xs.dedup

theorem sortedUnique_sorted_lt (xs : List String) :
    List.Sorted lexLt (sortedUnique xs) := by
  have h1 : List.Pairwise lexLe (sortedUnique xs) := sortedUnique_sorted xs
  have h2 : List.Pairwise (fun a b : String => a ≠ b) (sortedUnique xs) :=
    sortedUnique_nodup xs
  refine (h1.and h2).imp ?_
  rintro a b ⟨hle, hne⟩
  refine lt_of_le_of_ne hle ?_
  intro hd
  exact hne (by cases a; cases b; exact congrArg String.mk hd)

theorem sortedUnique_length (xs : List String) :
    (sortedUnique xs).length = xs.dedup.length :=
  (List.perm_insertionSort lexLe xs.dedup).length_eq

theorem sortedUnique_congr {xs ys : List String}
    (h : ∀ a, a ∈ xs ↔ a ∈ ys) : sortedUnique xs = sortedUnique ys := by
  refine List.eq_of_perm_of_sorted ?_ (sortedUnique_sorted xs) (sortedUnique_sorted ys)
  refine (List.perm_ext_iff_of_nodup (sortedUnique_nodup xs) (sortedUnique_nodup ys)).mpr ?_
  intro a
  rw [mem_sortedUnique, mem_sortedUnique]
  exact h a

theorem idxIn_isSome_iff {l : List String} {u : String} :
    (idxIn l u).isSome ↔ u ∈ l := by
  unfold idxIn
  split <;> simp_all

theorem idxIn_lt_length {l : List String} {u : String} {i : Nat}
    (h : idxIn l u = some i) : i < l.length := by
  unfold idxIn at h
  split at h
  · rename_i hmem
    cases h
    exact List.indexOf_lt_length.mpr hmem
  · cases h

theorem idxIn_get {l : List String} (hn : l.Nodup) (i : Nat) (h : i < l.length) :
    idxIn l (l.get ⟨i, h⟩) = some i := by
  unfold idxIn
  rw [if_pos (l.get_mem _ _), List.get_indexOf hn ⟨i, h⟩]

theorem getElem?_of_idxIn {l : List String} {u : String} {i : Nat}
    (h : idxIn l u = some i) : l[i]? = some u := by
  unfold idxIn at h
  split at h
  · rename_i hmem
    cases h
    have hlt : l.indexOf u < l.length := List.indexOf_lt_length.mpr hmem
    rw [List.getElem?_eq_getElem hlt]
    exact congrArg some (List.indexOf_get hlt)
  · cases h

namespace BookDataProcessor

/-- A set unchanged by one pass is returned unchanged by the loop. -/
theorem filterLoop_of_pass_fixed (self : BookDataProcessor) {rs : List RatingRow}
    (h : self.sparsityPass rs = rs) : self.filterLoop rs = rs := by
  rw [filterLoop_unfold, h, if_pos rfl]

end BookDataProcessor

/-! ### Claims -/

/-- Claim C1: for every finite collection of rating triples and every
pair of positive thresholds, the output of `filter_sparse_data`
satisfies the self-referential fixed-point invariant: recomputing
per-user and per-item rating counts within the output set itself,
every surviving triple meets both minima. -/
theorem filter_sparse_data_fixed_point (self : BookDataProcessor) (rs : List RatingRow)
    (hu : 0 < self.min_ratings_per_user) (hb : 0 < self.min_ratings_per_book) :
    ∀ r ∈ self.filter_sparse_data rs,
      self.min_ratings_per_user ≤ userRatingCount (self.filter_sparse_data rs) r.user_id ∧
      self.min_ratings_per_book ≤ bookRatingCount (self.filter_sparse_data rs) r.isbn :=
  self.satisfiesSparsity_of_pass_fixed (self.sparsityPass_filterLoop rs)

/-- Witness for C1 at a concrete input. -/
theorem filter_sparse_data_fixed_point_witness :
    1 ≤ userRatingCount ((⟨1, 1⟩ : BookDataProcessor).filter_sparse_data exOne) "u1" ∧
    1 ≤ bookRatingCount ((⟨1, 1⟩ : BookDataProcessor).filter_sparse_data exOne) "b1" := by
  have heq : (⟨1, 1⟩ : BookDataProcessor).filter_sparse_data exOne = exOne :=
    BookDataProcessor.filterLoop_of_pass_fixed _ (by decide)
  exact filter_sparse_data_fixed_point ⟨1, 1⟩ exOne (by decide) (by decide)
    ⟨"u1", "b1", 5⟩ (by rw [heq]; decide)

/-- Claim C2, counterexample: with thresholds 2/2 on `exPass`, the pass
the code executes keeps `(u1, b1)` because its per-item counts are
taken over the pass-start set (where b1 has 3 ratings), while the
spec's steps 2-3, which recount items over the result of the
user-filtering step (where b1 has 1 rating), drop every triple. -/
theorem sparsityPass_differs_from_spec_pass :
    (⟨2, 2⟩ : BookDataProcessor).sparsityPass exPass = [⟨"u1", "b1", 5⟩] ∧
    specPassStep 2 2 exPass = [] ∧
    (⟨2, 2⟩ : BookDataProcessor).sparsityPass exPass ≠ specPassStep 2 2 exPass :=
  ⟨by decide, by decide, by decide⟩

/-- Claim C2 (amended): in every iteration of the loop the code drops
user-sparse triples first and then item-sparse triples from the
user-filtered result, but BOTH count tables are computed over the set
as it stood at the start of the pass (not over the result of the user
step); hence a pass keeps exactly the triples meeting both thresholds
measured on the pass-start set. -/
theorem sparsityPass_counts_over_pass_start (self : BookDataProcessor) (cur : List RatingRow) :
    self.sparsityPass cur =
      cur.filter (fun r =>
        decide (self.min_ratings_per_user ≤ userRatingCount cur r.user_id) &&
        decide (self.min_ratings_per_book ≤ bookRatingCount cur r.isbn)) ∧
    self.filter_sparse_data cur =
      (if (self.sparsityPass cur).length = cur.length then self.sparsityPass cur
       else self.filter_sparse_data (self.sparsityPass cur)) := by
  constructor
  · unfold BookDataProcessor.sparsityPass
    rw [List.filter_filter]
    congr 1
    funext r
    exact Bool.and_comm _ _
  · exact BookDataProcessor.filterLoop_unfold self cur

/-- Claim C3: `filter_sparse_data` terminates (it is a total function);
the triple count never increases, neither in one pass nor overall; and
the loop stops exactly when a pass produces no change, in which case
the output is the pass's (unchanged) input; otherwise it recurses on
the pass's output. -/
theorem filter_sparse_data_termination (self : BookDataProcessor) (rs : List RatingRow) :
    (self.sparsityPass rs).length ≤ rs.length ∧
    (self.filter_sparse_data rs).length ≤ rs.length ∧
    ((self.sparsityPass rs).length = rs.length →
      self.filter_sparse_data rs = rs ∧ self.sparsityPass rs = rs) ∧
    ((self.sparsityPass rs).length ≠ rs.length →
      self.filter_sparse_data rs = self.filter_sparse_data (self.sparsityPass rs)) := by
  refine ⟨self.sparsityPass_length_le rs, (self.filterLoop_sublist rs).length_le, ?_, ?_⟩
  · intro h
    have heq : self.sparsityPass rs = rs := (self.sparsityPass_sublist rs).eq_of_length h
    exact ⟨self.filterLoop_of_pass_fixed heq, heq⟩
  · intro h
    show self.filterLoop rs = self.filterLoop (self.sparsityPass rs)
    rw [BookDataProcessor.filterLoop_unfold self rs, if_neg h]

/-- Witness for C3 at a concrete input. -/
theorem filter_sparse_data_termination_witness :
    (⟨1, 1⟩ : BookDataProcessor).filter_sparse_data exOne = exOne ∧
    (⟨1, 1⟩ : BookDataProcessor).sparsityPass exOne = exOne :=
  (filter_sparse_data_termination ⟨1, 1⟩ exOne).2.2.1 (by decide)

/-- Claim C4: the `IndexMap` produced by `create_interaction_matrix` is
a bijection per axis: the forward user and book maps are defined on
exactly the distinct identifiers appearing in the frame, every
assigned index lies in `[0, N)` and every index in `[0, N)` is
assigned, `N` is the number of distinct identifiers on that axis, and
the reverse map takes every assigned index back to its identifier. -/
theorem create_interaction_matrix_bijection (self : BookDataProcessor) (rs : List RatingRow) :
    (∀ u, (((self.create_interaction_matrix rs).2).user_to_idx u).isSome ↔
        u ∈ rs.map (fun r => r.user_id)) ∧
    (∀ u i, ((self.create_interaction_matrix rs).2).user_to_idx u = some i →
        i < ((self.create_interaction_matrix rs).2).n_users) ∧
    (∀ i, i < ((self.create_interaction_matrix rs).2).n_users →
        ∃ u, ((self.create_interaction_matrix rs).2).user_to_idx u = some i) ∧
    (∀ u i, ((self.create_interaction_matrix rs).2).user_to_idx u = some i →
        ((self.create_interaction_matrix rs).2).idx_to_user i = some u) ∧
    ((self.create_interaction_matrix rs).2).n_users
        = (rs.map (fun r => r.user_id)).dedup.length ∧
    (∀ b, (((self.create_interaction_matrix rs).2).book_to_idx b).isSome ↔
        b ∈ rs.map (fun r => r.isbn)) ∧
    (∀ b i, ((self.create_interaction_matrix rs).2).book_to_idx b = some i →
        i < ((self.create_interaction_matrix rs).2).n_books) ∧
    (∀ i, i < ((self.create_interaction_matrix rs).2).n_books →
        ∃ b, ((self.create_interaction_matrix rs).2).book_to_idx b = some i) ∧
    (∀ b i, ((self.create_interaction_matrix rs).2).book_to_idx b = some i →
        ((self.create_interaction_matrix rs).2).idx_to_book i = some b) ∧
    ((self.create_interaction_matrix rs).2).n_books
        = (rs.map (fun r => r.isbn)).dedup.length := by
  simp only [BookDataProcessor.create_interaction_matrix]
  refine ⟨fun u => idxIn_isSome_iff.trans mem_sortedUnique,
    fun u i h => idxIn_lt_length h,
    fun i hi => ⟨(uniqueSortedUsers rs).get ⟨i, hi⟩, idxIn_get (sortedUnique_nodup _) i hi⟩,
    fun u i h => getElem?_of_idxIn h,
    sortedUnique_length _,
    fun b => idxIn_isSome_iff.trans mem_sortedUnique,
    fun b i h => idxIn_lt_length h,
    fun i hi => ⟨(uniqueSortedBooks rs).get ⟨i, hi⟩, idxIn_get (sortedUnique_nodup _) i hi⟩,
    fun b i h => getElem?_of_idxIn h,
    sortedUnique_length _⟩

/-- Witness for C4 at a concrete input. -/
theorem create_interaction_matrix_bijection_witness :
    ((⟨5, 5⟩ : BookDataProcessor).create_interaction_matrix exPass).2.idx_to_user 0
      = some "u1" :=
  (create_interaction_matrix_bijection ⟨5, 5⟩ exPass).2.2.2.1 "u1" 0 (by decide)

/-- Claim C5: `filter_sparse_data` is idempotent: applied to its own
output with the same thresholds it returns that output unchanged. -/
theorem filter_sparse_data_idempotent (self : BookDataProcessor) (rs : List RatingRow) :
    self.filter_sparse_data (self.filter_sparse_data rs) = self.filter_sparse_data rs :=
  self.filterLoop_of_pass_fixed (self.sparsityPass_filterLoop rs)

/-- Claim C6: raising `min_ratings_per_user` while holding
`min_ratings_per_book` fixed never increases the number of surviving
triples. -/
theorem filter_sparse_data_antitone_min_user
    (minU minU' minI : Nat) (rs : List RatingRow) (h : minU ≤ minU') :
    ((⟨minU', minI⟩ : BookDataProcessor).filter_sparse_data rs).length ≤
      ((⟨minU, minI⟩ : BookDataProcessor).filter_sparse_data rs).length := by
  have hsat' : satisfiesSparsity minU' minI
      ((⟨minU', minI⟩ : BookDataProcessor).filterLoop rs) :=
    BookDataProcessor.satisfiesSparsity_of_pass_fixed _
      (BookDataProcessor.sparsityPass_filterLoop _ rs)
  have hsat : satisfiesSparsity minU minI
      ((⟨minU', minI⟩ : BookDataProcessor).filterLoop rs) :=
    fun r hr => ⟨le_trans h (hsat' r hr).1, (hsat' r hr).2⟩
  have hsub :
      ((⟨minU', minI⟩ : BookDataProcessor).filterLoop rs).Sublist
        ((⟨minU, minI⟩ : BookDataProcessor).filterLoop rs) :=
    BookDataProcessor.sublist_filterLoop_of_satisfies _
      (BookDataProcessor.filterLoop_sublist _ rs) hsat
  exact hsub.length_le

/-- Witness for C6 at a concrete input. -/
theorem filter_sparse_data_antitone_min_user_witness :
    ((⟨2, 1⟩ : BookDataProcessor).filter_sparse_data exOne).length ≤
      ((⟨1, 1⟩ : BookDataProcessor).filter_sparse_data exOne).length :=
  filter_sparse_data_antitone_min_user 1 2 1 exOne (by decide)

/-- Claim C7: the index mapper orders the distinct user and book
identifiers lexicographically on the raw token (strictly increasing,
hence without repetition), assigns sequential indices `0..N-1` in that
order, and is deterministic: any two frames with the same identifier
sets on an axis receive the identical forward map on that axis. -/
theorem create_interaction_matrix_lex (self : BookDataProcessor) (rs : List RatingRow) :
    List.Sorted lexLt (uniqueSortedUsers rs) ∧
    (∀ u, u ∈ uniqueSortedUsers rs ↔ u ∈ rs.map (fun r => r.user_id)) ∧
    (∀ i (h : i < (uniqueSortedUsers rs).length),
      ((self.create_interaction_matrix rs).2).user_to_idx
        ((uniqueSortedUsers rs).get ⟨i, h⟩) = some i) ∧
    (∀ rs' : List RatingRow,
      (∀ u, u ∈ rs.map (fun r => r.user_id) ↔ u ∈ rs'.map (fun r => r.user_id)) →
      ((self.create_interaction_matrix rs).2).user_to_idx =
        ((self.create_interaction_matrix rs').2).user_to_idx) ∧
    List.Sorted lexLt (uniqueSortedBooks rs) ∧
    (∀ b, b ∈ uniqueSortedBooks rs ↔ b ∈ rs.map (fun r => r.isbn)) ∧
    (∀ i (h : i < (uniqueSortedBooks rs).length),
      ((self.create_interaction_matrix rs).2).book_to_idx
        ((uniqueSortedBooks rs).get ⟨i, h⟩) = some i) ∧
    (∀ rs' : List RatingRow,
      (∀ b, b ∈ rs.map (fun r => r.isbn) ↔ b ∈ rs'.map (fun r => r.isbn)) →
      ((self.create_interaction_matrix rs).2).book_to_idx =
        ((self.create_interaction_matrix rs').2).book_to_idx) := by
  simp only [BookDataProcessor.create_interaction_matrix]
  refine ⟨sortedUnique_sorted_lt _,
    fun u => mem_sortedUnique,
    fun i h => idxIn_get (sortedUnique_nodup _) i h,
    fun rs' h => ?_,
    sortedUnique_sorted_lt _,
    fun b => mem_sortedUnique,
    fun i h => idxIn_get (sortedUnique_nodup _) i h,
    fun rs' h => ?_⟩
  · funext u
    unfold userToIdx uniqueSortedUsers
    rw [sortedUnique_congr h]
  · funext b
    unfold bookToIdx uniqueSortedBooks
    rw [sortedUnique_congr h]

/-- Witness for C7 at a concrete input. -/
theorem create_interaction_matrix_lex_witness :
    ((⟨5, 5⟩ : BookDataProcessor).create_interaction_matrix exPass).2.user_to_idx "u2"
      = some 1 := by
  have h := (create_interaction_matrix_lex ⟨5, 5⟩ exPass).2.2.1 1 (by decide)
  have hg : (uniqueSortedUsers exPass).get ⟨1, by decide⟩ = "u2" := by decide
  rw [hg] at h
  exact h

/-- Claim C8, counterexample: a raw row with a whitespace-only user
identifier and a non-numeric rating, and a raw row with missing (null)
identifier and rating, are both passed through by `clean_ratings`
unchanged — each produces a triple, none is rejected. -/
theorem clean_ratings_keeps_malformed_rows :
    isBlankToken "   " = true ∧
    isNumericToken "ten" = false ∧
    (⟨5, 5⟩ : BookDataProcessor).clean_ratings [exRawBlank, exRawNull] =
      [⟨some "   ", some "0316666343", some "ten"⟩, ⟨none, some "0316666343", none⟩] ∧
    (⟨5, 5⟩ : BookDataProcessor).clean_ratings [exRawBlank, exRawNull] ≠ [] :=
  ⟨by decide, by decide, by decide, by decide⟩

/-- Claim C8 (amended): `clean_ratings` only renames and reorders
columns; every raw row — including rows with missing or
whitespace-only identifiers and missing or non-numeric ratings —
produces exactly one output triple with identical field values, no row
is rejected, and no row raises (the function is total). -/
theorem clean_ratings_is_column_rename (self : BookDataProcessor) (rows : List RawRatingRow) :
    self.clean_ratings rows =
      rows.map (fun r =>
        ({ user_id := r.userID, isbn := r.ISBN, rating := r.bookRating } : CleanedRatingRow)) ∧
    (self.clean_ratings rows).length = rows.length ∧
    ∀ r ∈ rows,
      ({ user_id := r.userID, isbn := r.ISBN, rating := r.bookRating } : CleanedRatingRow)
        ∈ self.clean_ratings rows := by
  have h : self.clean_ratings rows =
      rows.map (fun r =>
        ({ user_id := r.userID, isbn := r.ISBN, rating := r.bookRating } : CleanedRatingRow)) := by
    unfold BookDataProcessor.clean_ratings
    rw [List.map_map]
    rfl
  refine ⟨h, by rw [h, List.length_map], ?_⟩
  intro r hr
  rw [h]
  exact List.mem_map_of_mem _ hr

/-- Witness for the amended C8 at a concrete input. -/
theorem clean_ratings_is_column_rename_witness :
    (⟨some "   ", some "0316666343", some "ten"⟩ : CleanedRatingRow) ∈
      (⟨5, 5⟩ : BookDataProcessor).clean_ratings [exRawBlank] :=
  (clean_ratings_is_column_rename ⟨5, 5⟩ [exRawBlank]).2.2 exRawBlank (by decide)

/-- Claim C9: on the spec §8 scenario frame with both thresholds set
to 10 (exceeding every achievable count), `filter_sparse_data` returns
the valid empty set without raising, and `create_interaction_matrix`
on it yields `n_users = 0`, `n_books = 0` and an empty interaction
frame.  The returned values — shown here in full — are the code's
entire caller-visible result: no `EmptyResultWarning` flag of any kind
accompanies them (no such status exists anywhere in the codebase). -/
theorem filter_sparse_data_empty_result_silent :
    (⟨10, 10⟩ : BookDataProcessor).filter_sparse_data exSpec = [] ∧
    ((⟨10, 10⟩ : BookDataProcessor).create_interaction_matrix
        ((⟨10, 10⟩ : BookDataProcessor).filter_sparse_data exSpec)).2.n_users = 0 ∧
    ((⟨10, 10⟩ : BookDataProcessor).create_interaction_matrix
        ((⟨10, 10⟩ : BookDataProcessor).filter_sparse_data exSpec)).2.n_books = 0 ∧
    ((⟨10, 10⟩ : BookDataProcessor).create_interaction_matrix
        ((⟨10, 10⟩ : BookDataProcessor).filter_sparse_data exSpec)).1 = [] := by
  have h1 : (⟨10, 10⟩ : BookDataProcessor).sparsityPass exSpec = [] := by decide
  have h2 : (⟨10, 10⟩ : BookDataProcessor).sparsityPass [] = [] := by decide
  have hloop : (⟨10, 10⟩ : BookDataProcessor).filter_sparse_data exSpec = [] := by
    show (⟨10, 10⟩ : BookDataProcessor).filterLoop exSpec = []
    rw [BookDataProcessor.filterLoop_unfold, h1,
      if_neg (by decide : ¬ (([] : List RatingRow).length = exSpec.length))]
    exact BookDataProcessor.filterLoop_of_pass_fixed _ h2
  refine ⟨hloop, ?_, ?_, ?_⟩ <;> rw [hloop] <;> decide

/-- Claim C10: `filter_sparse_data` only removes rows: its output is a
sub-multiset (indeed an order-preserving sublist) of its input, each
surviving row keeping its `user_id`, `isbn` and `rating` values
unchanged; the output schema is the input schema (the `RatingRow` type
— the count columns joined in during a pass are dropped before the
pass ends). -/
theorem filter_sparse_data_only_removes (self : BookDataProcessor) (rs : List RatingRow) :
    (self.filter_sparse_data rs).Sublist rs ∧
    ∀ r ∈ self.filter_sparse_data rs, r ∈ rs :=
  ⟨self.filterLoop_sublist rs, fun _ hr => (self.filterLoop_sublist rs).subset hr⟩

/-- Witness for C10 at a concrete input. -/
theorem filter_sparse_data_only_removes_witness :
    (⟨"u1", "b1", 5⟩ : RatingRow) ∈ exOne := by
  have heq : (⟨1, 1⟩ : BookDataProcessor).filter_sparse_data exOne = exOne :=
    BookDataProcessor.filterLoop_of_pass_fixed _ (by decide)
  exact (filter_sparse_data_only_removes ⟨1, 1⟩ exOne).2 ⟨"u1", "b1", 5⟩ (by rw [heq]; decide)
